import Mathlib

/-!
Verification development for the metrics aggregation engine of the
CVR_ONLY_Production_Attempts repository.  The engine lives in
`src/src/pages/ViewResultsPage.tsx` (`calculateMetrics`,
`calculatePerformanceComposite`, `calculateBalanceIndex`).  The embedding
below translates that code: JavaScript numbers are modelled as rationals
(`ℚ`), `Math.round` as `⌊x + 1/2⌋`, optional / possibly-`undefined` fields
as `Option`, and JavaScript truthiness (`x || y`) as explicit helper
functions on `Option` / `Nat` / `String`.
-/

namespace ViewResults

/-- JavaScript `Math.round`: round half toward positive infinity. -/
def jsRound (x : ℚ) : ℤ := ⌊x + 1/2⌋

/-- `Math.round(x * 100) / 100`, the two-decimal rounding used by both
composite-index calculators. -/
def round2 (x : ℚ) : ℚ := (jsRound (x * 100) : ℚ) / 100

/-- JavaScript `a || b` for an optional string `a` (both `undefined` and
the empty string are falsy). -/
def jsOrStr (a : Option String) (b : String) : String :=
  match a with
  | some s => if s = "" then b else s
  | none => b

/-- JavaScript `a || b` for natural-number counters (`0` is falsy). -/
def jsOrNat (a b : Nat) : Nat := if a = 0 then b else a

/-- JavaScript `String.prototype.toLowerCase()`: lower-case every
character. -/
def toLowerString (s : String) : String := ⟨s.data.map Char.toLower⟩

/-- JavaScript truthiness of an optional number (`undefined`, `null` and
`0` are falsy). -/
def jsTruthyNum : Option ℚ → Bool
  | none => false
  | some v => v != 0

/-- `flagsAtConfirmation` payload of an `option_confirmed` event
(spec §3, read at ViewResultsPage.tsx:297-301). -/
structure FlagsAtConfirmation where
  simulationMetricsReorderingFlag : Option Bool
  moralValuesReorderingFlag : Option Bool

/-- A telemetry event as accessed by `calculateMetrics`: the `event` kind
tag plus the optional payload fields the code reads. -/
structure TelemetryEvent where
  event : String
  scenarioId : Option Int
  cvrAnswer : Option Bool
  valuesAfter : Option (List String)
  preferenceType : Option String
  flagsAtConfirmation : Option FlagsAtConfirmation

/-- A per-scenario tracking record (spec §3); every counter / flag /
timestamp field may be absent, which the code treats like a falsy value. -/
structure ScenarioTrackingRecord where
  scenarioId : Int
  startTime : Option ℚ
  endTime : Option ℚ
  switchCount : Option Nat
  cvrVisited : Option Bool
  cvrVisitCount : Option Nat
  cvrYesAnswers : Option Nat
  apaReordered : Option Bool
  apaReorderCount : Option Nat

/-- The decision carried by a scenario outcome (`decision.label`,
`decision.title`, each possibly absent). -/
structure Decision where
  label : Option String
  title : Option String

/-- A scenario outcome (spec §3). -/
structure ScenarioOutcome where
  scenarioId : Int
  decision : Decision

/-- The simulation-metrics snapshot: seven numeric fields
(ViewResultsPage.tsx:390-399). -/
structure SimulationMetrics where
  livesSaved : ℚ
  humanCasualties : ℚ
  firefightingResource : ℚ
  infrastructureCondition : ℚ
  biodiversityCondition : ℚ
  propertiesCondition : ℚ
  nuclearPowerStation : ℚ

/-- One entry of the output `scenarioDetails` collection
(ViewResultsPage.tsx:266-277). -/
structure ScenarioDetail where
  scenarioId : Int
  finalChoice : String
  aligned : Bool
  switches : Nat
  timeSeconds : ℤ
  cvrVisited : Bool
  cvrVisitCount : Nat
  cvrYesAnswers : Nat
  apaReordered : Bool
  apaReorderCount : Nat

/-- One entry of `valueOrderTrajectories` (ViewResultsPage.tsx:313-323). -/
structure ValueOrderTrajectory where
  scenarioId : Int
  values : List String
  preferenceType : String

/-- The aggregated output record (ViewResultsPage.tsx:325-341). -/
structure SessionDVs where
  cvrArrivals : Nat
  cvrYesCount : Nat
  cvrNoCount : Nat
  apaReorderings : Nat
  misalignAfterCvrApaCount : Nat
  realignAfterCvrApaCount : Nat
  switchCountTotal : Nat
  avgDecisionTime : ℚ
  decisionTimes : List ℚ
  valueConsistencyIndex : ℚ
  performanceComposite : ℚ
  balanceIndex : ℚ
  finalAlignmentByScenario : List Bool
  valueOrderTrajectories : List ValueOrderTrajectory
  scenarioDetails : List ScenarioDetail

/-- `allEvents.filter(e => e.event === 'cvr_opened')`. -/
def cvrOpenEvents (events : List TelemetryEvent) : List TelemetryEvent :=
  events.filter (fun e => e.event == "cvr_opened")

/-- `allEvents.filter(e => e.event === 'cvr_answered')`. -/
def cvrAnswerEvents (events : List TelemetryEvent) : List TelemetryEvent :=
  events.filter (fun e => e.event == "cvr_answered")

/-- `allEvents.filter(e => e.event === 'apa_reordered')`. -/
def apaEvents (events : List TelemetryEvent) : List TelemetryEvent :=
  events.filter (fun e => e.event == "apa_reordered")

/-- `cvrOpenEvents.filter(e => e.scenarioId === outcome.scenarioId)`. -/
def scenarioCvrVisits (events : List TelemetryEvent) (sid : Int) : List TelemetryEvent :=
  (cvrOpenEvents events).filter (fun e => e.scenarioId == some sid)

/-- `cvrAnswerEvents.filter(e => e.scenarioId === outcome.scenarioId && e.cvrAnswer === true)`. -/
def scenarioCvrYes (events : List TelemetryEvent) (sid : Int) : List TelemetryEvent :=
  (cvrAnswerEvents events).filter (fun e => e.scenarioId == some sid && e.cvrAnswer == some true)

/-- `apaEvents.filter(e => e.scenarioId === outcome.scenarioId)`. -/
def scenarioApa (events : List TelemetryEvent) (sid : Int) : List TelemetryEvent :=
  (apaEvents events).filter (fun e => e.scenarioId == some sid)

/-- `allEvents.filter(e => e.event === 'option_selected' && e.scenarioId === outcome.scenarioId)`. -/
def scenarioOptionSelections (events : List TelemetryEvent) (sid : Int) : List TelemetryEvent :=
  events.filter (fun e => e.event == "option_selected" && e.scenarioId == some sid)

/-- `Math.max(0, scenarioOptionSelections.length - 1)`; truncated `Nat`
subtraction is exactly the floored-at-zero subtraction. -/
def recomputedSwitchCount (events : List TelemetryEvent) (sid : Int) : Nat :=
  (scenarioOptionSelections events sid).length - 1

/-- The membership test of the alignment evaluator
(ViewResultsPage.tsx:238-243): scenario 1 consults the baseline
matched-values list, scenarios 2 and 3 the moral-values-reorder list,
anything else yields `false`. -/
def valueExistsInList (matched reorder : List String) (o : ScenarioOutcome) : Bool :=
  let optionValue := toLowerString (jsOrStr o.decision.label "")
  if o.scenarioId == 1 then matched.contains optionValue
  else if o.scenarioId == 2 || o.scenarioId == 3 then reorder.contains optionValue
  else false

/-- `aligned = valueExistsInList && scenarioCvrYesAnswers.length === 0`
(ViewResultsPage.tsx:245). -/
def alignedOf (matched reorder : List String) (events : List TelemetryEvent)
    (o : ScenarioOutcome) : Bool :=
  valueExistsInList matched reorder o && (scenarioCvrYes events o.scenarioId).length == 0

/-- `if (scenario.endTime && scenario.startTime)` — both timestamps truthy
(ViewResultsPage.tsx:200). -/
def hasTiming (s : ScenarioTrackingRecord) : Bool :=
  jsTruthyNum s.endTime && jsTruthyNum s.startTime

/-- `(scenario.endTime - scenario.startTime) / 1000`; only consulted under
`hasTiming`, where both timestamps are present. -/
def elapsedSeconds (s : ScenarioTrackingRecord) : ℚ :=
  (s.endTime.getD 0 - s.startTime.getD 0) / 1000

/-- The value stored into `scenarioDetailsMap` for a timed tracking
record (ViewResultsPage.tsx:204-212): each counter defaults through
`|| 0` / `|| false`. -/
structure TrackingData where
  timeSeconds : ℤ
  switches : Nat
  cvrVisited : Bool
  cvrVisitCount : Nat
  cvrYesAnswers : Nat
  apaReordered : Bool
  apaReorderCount : Nat

/-- How a timed `ScenarioTrackingRecord` is turned into a
`scenarioDetailsMap` entry (ViewResultsPage.tsx:204-212). -/
def trackingDataOf (s : ScenarioTrackingRecord) : TrackingData :=
  { timeSeconds := jsRound (elapsedSeconds s)
    switches := s.switchCount.getD 0
    cvrVisited := s.cvrVisited.getD false
    cvrVisitCount := s.cvrVisitCount.getD 0
    cvrYesAnswers := s.cvrYesAnswers.getD 0
    apaReordered := s.apaReordered.getD false
    apaReorderCount := s.apaReorderCount.getD 0 }

/-- The `scenarioHistory.forEach` loop building `scenarioDetailsMap`
(ViewResultsPage.tsx:199-214): a `Map.set` per timed record, modelled as
an association list with the newest binding at the head. -/
def scenarioDetailsMapEntries (history : List ScenarioTrackingRecord) :
    List (Int × TrackingData) :=
  history.foldl
    (fun acc s => if hasTiming s then (s.scenarioId, trackingDataOf s) :: acc else acc) []

/-- `scenarioDetailsMap.get(scenarioId)`: the newest binding wins, as with
a JavaScript `Map`. -/
def scenarioDetailsMapGet (history : List ScenarioTrackingRecord) (sid : Int) :
    Option TrackingData :=
  ((scenarioDetailsMapEntries history).find? (fun p => p.1 == sid)).map Prod.snd

/-- The tracking record whose `Map.set` binding survives for `sid`: the
last record in history order with truthy timing and that scenario id. -/
def lastTimedRecord (history : List ScenarioTrackingRecord) (sid : Int) :
    Option ScenarioTrackingRecord :=
  (history.filter hasTiming).reverse.find? (fun s => s.scenarioId == sid)

/-- `decisionTimes` after the session-wide fallback
(ViewResultsPage.tsx:199-220): one elapsed time per timed tracking record,
or one 75-second entry per outcome when no record is timed. -/
def sessionDecisionTimes (history : List ScenarioTrackingRecord)
    (outcomes : List ScenarioOutcome) : List ℚ :=
  let raw := history.filterMap
    (fun s => if hasTiming s then some (elapsedSeconds s) else none)
  if raw.length = 0 then outcomes.map (fun _ => (75 : ℚ)) else raw

/-- `avgDecisionTime` (ViewResultsPage.tsx:222-224). -/
def avgOf (dt : List ℚ) : ℚ :=
  if 0 < dt.length then dt.sum / dt.length else 0

/-- The default object used when `scenarioDetailsMap` has no entry for the
scenario (ViewResultsPage.tsx:249-257); `decisionTimes[index] || 0` is
`getD index 0` because an absent entry and a zero entry coincide. -/
def defaultTrackingData (dt : List ℚ) (index : Nat) : TrackingData :=
  { timeSeconds := jsRound (dt.getD index 0)
    switches := 0
    cvrVisited := false
    cvrVisitCount := 0
    cvrYesAnswers := 0
    apaReordered := false
    apaReorderCount := 0 }

/-- One iteration of the `simulationOutcomes.forEach` loop building
`scenarioDetails` (ViewResultsPage.tsx:229-278). -/
def scenarioDetailOf (matched reorder : List String) (events : List TelemetryEvent)
    (history : List ScenarioTrackingRecord) (dt : List ℚ) (index : Nat)
    (o : ScenarioOutcome) : ScenarioDetail :=
  let aligned := alignedOf matched reorder events o
  let trackingData := (scenarioDetailsMapGet history o.scenarioId).getD
    (defaultTrackingData dt index)
  let switchCount := recomputedSwitchCount events o.scenarioId
  { scenarioId := o.scenarioId
    finalChoice := jsOrStr o.decision.title (jsOrStr o.decision.label "Unknown")
    aligned := aligned
    switches := jsOrNat trackingData.switches switchCount
    timeSeconds := trackingData.timeSeconds
    cvrVisited := trackingData.cvrVisited || !(scenarioCvrVisits events o.scenarioId).isEmpty
    cvrVisitCount := jsOrNat trackingData.cvrVisitCount (scenarioCvrVisits events o.scenarioId).length
    cvrYesAnswers := jsOrNat trackingData.cvrYesAnswers (scenarioCvrYes events o.scenarioId).length
    apaReordered := trackingData.apaReordered || !(scenarioApa events o.scenarioId).isEmpty
    apaReorderCount := jsOrNat trackingData.apaReorderCount (scenarioApa events o.scenarioId).length }

/-- The indexed `forEach` over outcomes producing `scenarioDetails`. -/
def scenarioDetailsAux (matched reorder : List String) (events : List TelemetryEvent)
    (history : List ScenarioTrackingRecord) (dt : List ℚ) :
    Nat → List ScenarioOutcome → List ScenarioDetail
  | _, [] => []
  | index, o :: rest =>
    scenarioDetailOf matched reorder events history dt index o ::
      scenarioDetailsAux matched reorder events history dt (index + 1) rest

/-- `scenarioEvents.find(e => e.event === 'option_confirmed')?.flagsAtConfirmation`
(ViewResultsPage.tsx:294-297). -/
def firstConfirmationFlags (events : List TelemetryEvent) (sid : Int) :
    Option FlagsAtConfirmation :=
  ((events.filter (fun e => e.scenarioId == some sid)).find?
    (fun e => e.event == "option_confirmed")).bind (fun e => e.flagsAtConfirmation)

/-- Condition under which `realignAfterCvrApaCount` is incremented for a
scenario (ViewResultsPage.tsx:299-306). -/
def realignTriggered (events : List TelemetryEvent) (sid : Int) : Bool :=
  match firstConfirmationFlags events sid with
  | some f =>
    f.simulationMetricsReorderingFlag.getD false || f.moralValuesReorderingFlag.getD false
  | none => false

/-- The `apaEvents.forEach` loop building `valueOrderTrajectories`
(ViewResultsPage.tsx:313-323); a JavaScript array (`valuesAfter`) is
truthy even when empty, so presence alone is tested. -/
def valueOrderTrajectoriesOf (events : List TelemetryEvent) : List ValueOrderTrajectory :=
  (apaEvents events).filterMap (fun e =>
    match e.valuesAfter, e.scenarioId with
    | some va, some sid =>
      some { scenarioId := sid, values := va, preferenceType := jsOrStr e.preferenceType "unknown" }
    | _, _ => none)

/-- The 7-element normalized vector shared by both composite calculators
(ViewResultsPage.tsx:391-399 and 407-415; the source spells the same
construction twice). -/
def normalizedVector (m : SimulationMetrics) : List ℚ :=
  [ min (m.livesSaved / 20000) 1
  , 1 - min (m.humanCasualties / 1000) 1
  , m.firefightingResource / 100
  , m.infrastructureCondition / 100
  , m.biodiversityCondition / 100
  , m.propertiesCondition / 100
  , m.nuclearPowerStation / 100 ]

/-- `calculatePerformanceComposite` (ViewResultsPage.tsx:390-404). -/
def calculatePerformanceComposite (m : SimulationMetrics) : ℚ :=
  let values := normalizedVector m
  round2 (values.sum / values.length)

/-- `calculateBalanceIndex` (ViewResultsPage.tsx:406-420): one minus the
population variance, rounded to two decimals. -/
def calculateBalanceIndex (m : SimulationMetrics) : ℚ :=
  let normalized := normalizedVector m
  let mean := normalized.sum / normalized.length
  let variance :=
    (normalized.map (fun v : ℚ => (v - mean) ^ 2)).sum / (normalized.length : ℚ)
  round2 (1 - variance)

/-- The successful-path assembly of the `SessionDVs` record
(ViewResultsPage.tsx:186-341). -/
def computeSessionDVs (outcomes : List ScenarioOutcome) (fm : SimulationMetrics)
    (matched reorder : List String) (history : List ScenarioTrackingRecord)
    (events : List TelemetryEvent) : SessionDVs :=
  let dt := sessionDecisionTimes history outcomes
  let finalAlignment := outcomes.map (alignedOf matched reorder events)
  let details := scenarioDetailsAux matched reorder events history dt 0 outcomes
  let alignedCount := (finalAlignment.filter id).length
  { cvrArrivals := (cvrOpenEvents events).length
    cvrYesCount := ((cvrAnswerEvents events).filter (fun e => e.cvrAnswer == some true)).length
    cvrNoCount := ((cvrAnswerEvents events).filter (fun e => e.cvrAnswer == some false)).length
    apaReorderings := (apaEvents events).length
    misalignAfterCvrApaCount := details.countP (fun d => !d.aligned)
    realignAfterCvrApaCount := details.countP (fun d => realignTriggered events d.scenarioId)
    switchCountTotal := (details.map (fun d => d.switches)).sum
    avgDecisionTime := avgOf dt
    decisionTimes := dt
    valueConsistencyIndex :=
      if 0 < finalAlignment.length then (alignedCount : ℚ) / finalAlignment.length else 0
    performanceComposite := calculatePerformanceComposite fm
    balanceIndex := calculateBalanceIndex fm
    finalAlignmentByScenario := finalAlignment
    valueOrderTrajectories := valueOrderTrajectoriesOf events
    scenarioDetails := details }

/-- Externally visible effects of one `calculateMetrics` invocation:
whether a record was produced, whether the persistence write ran, and
whether the `metricsCalculated` one-shot flag was set. -/
structure CalcOutcome where
  record : Option SessionDVs
  persisted : Bool
  metricsCalculatedFlag : Bool

/-- The orchestration of `calculateMetrics` (ViewResultsPage.tsx:158-388):
on the missing-precondition path (`!simulationOutcomes.length ||
!finalMetrics`, line 167) the function returns early — before the
`sessionStorage.setItem('metricsCalculated', …)` on line 368 — so no
record is built, no write is attempted, and the flag is left unset.
Otherwise a record is built, the write is attempted (its success is the
external parameter `persistOk`), and the flag is set whether or not the
write succeeds (line 368 on success, line 379 in the catch handler). -/
def calculateMetrics (outcomes : List ScenarioOutcome)
    (finalMetrics : Option SimulationMetrics) (matched reorder : List String)
    (history : List ScenarioTrackingRecord) (events : List TelemetryEvent)
    (persistOk : Bool) : CalcOutcome :=
  if outcomes.length = 0 then
    { record := none, persisted := false, metricsCalculatedFlag := false }
  else
    match finalMetrics with
    | none => { record := none, persisted := false, metricsCalculatedFlag := false }
    | some fm =>
      { record := some (computeSessionDVs outcomes fm matched reorder history events)
        persisted := persistOk
        metricsCalculatedFlag := true }

/-! ### Helper lemmas -/

lemma filterMap_if_eq_map_filter {α β : Type} (p : α → Bool) (f : α → β) (l : List α) :
    (l.filterMap fun a => if p a then some (f a) else none) = (l.filter p).map f := by
  induction l with
  | nil => rfl
  | cons a l ih =>
    by_cases h : p a <;> simp [List.filterMap_cons, List.filter_cons, h, ih]

lemma sessionDecisionTimes_eq (history : List ScenarioTrackingRecord)
    (outcomes : List ScenarioOutcome) :
    sessionDecisionTimes history outcomes =
      if (history.filter hasTiming).isEmpty then outcomes.map (fun _ => (75 : ℚ))
      else (history.filter hasTiming).map elapsedSeconds := by
  unfold sessionDecisionTimes
  rw [filterMap_if_eq_map_filter]
  by_cases h : history.filter hasTiming = [] <;>
    simp [h, List.isEmpty_iff, List.length_eq_zero]

lemma scenarioDetailsMapEntries_foldl (l : List ScenarioTrackingRecord)
    (acc : List (Int × TrackingData)) :
    l.foldl (fun acc s => if hasTiming s then (s.scenarioId, trackingDataOf s) :: acc else acc) acc
      = ((l.filter hasTiming).map (fun s => (s.scenarioId, trackingDataOf s))).reverse ++ acc := by
  induction l generalizing acc with
  | nil => simp
  | cons s l ih =>
    by_cases h : hasTiming s <;> simp [List.filter_cons, h, ih, List.foldl_cons]

lemma scenarioDetailsMapGet_eq (history : List ScenarioTrackingRecord) (sid : Int) :
    scenarioDetailsMapGet history sid = (lastTimedRecord history sid).map trackingDataOf := by
  unfold scenarioDetailsMapGet scenarioDetailsMapEntries lastTimedRecord
  rw [scenarioDetailsMapEntries_foldl, List.append_nil, ← List.map_reverse, List.find?_map,
    Option.map_map]
  rfl

lemma scenarioDetailsAux_length (matched reorder : List String) (events : List TelemetryEvent)
    (history : List ScenarioTrackingRecord) (dt : List ℚ) :
    ∀ (outcomes : List ScenarioOutcome) (k : Nat),
      (scenarioDetailsAux matched reorder events history dt k outcomes).length = outcomes.length
  | [], _ => rfl
  | _ :: rest, k => by
    simp [scenarioDetailsAux,
      scenarioDetailsAux_length matched reorder events history dt rest (k + 1)]

lemma scenarioDetailsAux_getElem? (matched reorder : List String) (events : List TelemetryEvent)
    (history : List ScenarioTrackingRecord) (dt : List ℚ) :
    ∀ (outcomes : List ScenarioOutcome) (k i : Nat),
      (scenarioDetailsAux matched reorder events history dt k outcomes)[i]?
        = outcomes[i]?.map (fun o => scenarioDetailOf matched reorder events history dt (k + i) o)
  | [], _, _ => by simp [scenarioDetailsAux]
  | o :: rest, k, 0 => by simp [scenarioDetailsAux]
  | o :: rest, k, i + 1 => by
    have h : k + 1 + i = k + (i + 1) := by omega
    simp only [scenarioDetailsAux, List.getElem?_cons_succ,
      scenarioDetailsAux_getElem? matched reorder events history dt rest (k + 1) i, h]

lemma scenarioDetailsAux_map_scenarioId (matched reorder : List String)
    (events : List TelemetryEvent) (history : List ScenarioTrackingRecord) (dt : List ℚ) :
    ∀ (outcomes : List ScenarioOutcome) (k : Nat),
      (scenarioDetailsAux matched reorder events history dt k outcomes).map
          (fun d => d.scenarioId)
        = outcomes.map (fun o => o.scenarioId)
  | [], _ => rfl
  | o :: rest, k => by
    simp [scenarioDetailsAux, scenarioDetailOf,
      scenarioDetailsAux_map_scenarioId matched reorder events history dt rest (k + 1)]

lemma scenarioDetailsAux_countP (matched reorder : List String) (events : List TelemetryEvent)
    (history : List ScenarioTrackingRecord) (dt : List ℚ)
    (p : ScenarioDetail → Bool) (f : ScenarioOutcome → Bool)
    (hp : ∀ k o, p (scenarioDetailOf matched reorder events history dt k o) = f o) :
    ∀ (outcomes : List ScenarioOutcome) (k : Nat),
      (scenarioDetailsAux matched reorder events history dt k outcomes).countP p
        = outcomes.countP f
  | [], _ => rfl
  | o :: rest, k => by
    simp [scenarioDetailsAux, List.countP_cons, hp k o,
      scenarioDetailsAux_countP matched reorder events history dt p f hp rest (k + 1)]

lemma round2_nonneg {x : ℚ} (h : 0 ≤ x) : 0 ≤ round2 x := by
  unfold round2 jsRound
  apply div_nonneg _ (by norm_num)
  have hf : (0 : ℤ) ≤ ⌊x * 100 + 1 / 2⌋ := Int.floor_nonneg.mpr (by positivity)
  exact_mod_cast hf

lemma round2_le_one {x : ℚ} (h : x ≤ 1) : round2 x ≤ 1 := by
  unfold round2 jsRound
  rw [div_le_one (by norm_num)]
  have hlt : ⌊x * 100 + 1 / 2⌋ < 101 := by
    rw [Int.floor_lt]
    push_cast
    nlinarith
  have hle : ⌊x * 100 + 1 / 2⌋ ≤ 100 := by omega
  exact_mod_cast hle

lemma computeSessionDVs_decisionTimes (outcomes : List ScenarioOutcome)
    (fm : SimulationMetrics) (matched reorder : List String)
    (history : List ScenarioTrackingRecord) (events : List TelemetryEvent) :
    (computeSessionDVs outcomes fm matched reorder history events).decisionTimes
      = sessionDecisionTimes history outcomes := rfl

lemma computeSessionDVs_finalAlignment (outcomes : List ScenarioOutcome)
    (fm : SimulationMetrics) (matched reorder : List String)
    (history : List ScenarioTrackingRecord) (events : List TelemetryEvent) :
    (computeSessionDVs outcomes fm matched reorder history events).finalAlignmentByScenario
      = outcomes.map (alignedOf matched reorder events) := rfl

lemma computeSessionDVs_scenarioDetails (outcomes : List ScenarioOutcome)
    (fm : SimulationMetrics) (matched reorder : List String)
    (history : List ScenarioTrackingRecord) (events : List TelemetryEvent) :
    (computeSessionDVs outcomes fm matched reorder history events).scenarioDetails
      = scenarioDetailsAux matched reorder events history
          (sessionDecisionTimes history outcomes) 0 outcomes := rfl

/-! ### Concrete inputs used by counterexamples and witnesses -/

/-- The snapshot of the spec's round-trip property (§8). -/
def roundTripSnapshot : SimulationMetrics :=
  { livesSaved := 20000, humanCasualties := 0, firefightingResource := 100
    infrastructureCondition := 100, biodiversityCondition := 100
    propertiesCondition := 100, nuclearPowerStation := 100 }

/-- A snapshot whose fields are all non-negative but whose
`firefightingResource` exceeds the conventional 0-100 scale. -/
def saturatedSnapshot : SimulationMetrics :=
  { livesSaved := 20000, humanCasualties := 0, firefightingResource := 1000
    infrastructureCondition := 100, biodiversityCondition := 100
    propertiesCondition := 100, nuclearPowerStation := 100 }

/-- A bland all-zero snapshot, used where only presence matters. -/
def zeroSnapshot : SimulationMetrics :=
  { livesSaved := 0, humanCasualties := 0, firefightingResource := 0
    infrastructureCondition := 0, biodiversityCondition := 0
    propertiesCondition := 0, nuclearPowerStation := 0 }

/-- A mid-scale snapshot with every field equal to 50. -/
def midSnapshot : SimulationMetrics :=
  { livesSaved := 50, humanCasualties := 50, firefightingResource := 50
    infrastructureCondition := 50, biodiversityCondition := 50
    propertiesCondition := 50, nuclearPowerStation := 50 }

/-! ### C9 -/

/-- C9: for the snapshot with 20000 lives saved, 0 casualties and all five
condition fields at 100, `calculatePerformanceComposite` returns 1.0 and
`calculateBalanceIndex` returns 1.0. -/
theorem c9_perfect_round_trip :
    calculatePerformanceComposite roundTripSnapshot = 1 ∧
      calculateBalanceIndex roundTripSnapshot = 1 := by
  constructor <;>
    norm_num [calculatePerformanceComposite, calculateBalanceIndex, roundTripSnapshot,
      normalizedVector, round2, jsRound]

/-! ### C6 -/

/-- C6 counterexample: `saturatedSnapshot` has seven non-negative fields,
yet its performance composite is 2.29, outside `[0, 1]` — non-negativity
alone does not bound the five `/100` dimensions. -/
theorem c6_counterexample :
    (0 ≤ saturatedSnapshot.livesSaved ∧ 0 ≤ saturatedSnapshot.humanCasualties ∧
      0 ≤ saturatedSnapshot.firefightingResource ∧
      0 ≤ saturatedSnapshot.infrastructureCondition ∧
      0 ≤ saturatedSnapshot.biodiversityCondition ∧
      0 ≤ saturatedSnapshot.propertiesCondition ∧
      0 ≤ saturatedSnapshot.nuclearPowerStation) ∧
    calculatePerformanceComposite saturatedSnapshot = 229 / 100 ∧
    ¬ calculatePerformanceComposite saturatedSnapshot ≤ 1 := by
  refine ⟨by norm_num [saturatedSnapshot], ?_, ?_⟩ <;>
    norm_num [calculatePerformanceComposite, saturatedSnapshot, normalizedVector,
      round2, jsRound]

/-- C6 (amended): for snapshots whose first two fields are non-negative and
whose five condition fields lie in the conventional `[0, 100]` range, the
performance composite lies in `[0, 1]`; the balance index is at most 1 for
every snapshot with such fields (variance is non-negative). -/
theorem c6_composite_bounds (m : SimulationMetrics)
    (h1 : 0 ≤ m.livesSaved) (h2 : 0 ≤ m.humanCasualties)
    (h3 : 0 ≤ m.firefightingResource) (h4 : m.firefightingResource ≤ 100)
    (h5 : 0 ≤ m.infrastructureCondition) (h6 : m.infrastructureCondition ≤ 100)
    (h7 : 0 ≤ m.biodiversityCondition) (h8 : m.biodiversityCondition ≤ 100)
    (h9 : 0 ≤ m.propertiesCondition) (h10 : m.propertiesCondition ≤ 100)
    (h11 : 0 ≤ m.nuclearPowerStation) (h12 : m.nuclearPowerStation ≤ 100) :
    0 ≤ calculatePerformanceComposite m ∧ calculatePerformanceComposite m ≤ 1 ∧
      calculateBalanceIndex m ≤ 1 := by
  have hmin1a : (0 : ℚ) ≤ min (m.livesSaved / 20000) 1 :=
    le_min (by positivity) (by norm_num)
  have hmin1b : min (m.livesSaved / 20000) 1 ≤ 1 := min_le_right _ _
  have hmin2a : (0 : ℚ) ≤ min (m.humanCasualties / 1000) 1 :=
    le_min (by positivity) (by norm_num)
  have hmin2b : min (m.humanCasualties / 1000) 1 ≤ 1 := min_le_right _ _
  have hd1 : (0 : ℚ) ≤ m.firefightingResource / 100 := by positivity
  have hd1' : m.firefightingResource / 100 ≤ 1 := by
    rw [div_le_one (by norm_num)]; exact h4
  have hd2 : (0 : ℚ) ≤ m.infrastructureCondition / 100 := by positivity
  have hd2' : m.infrastructureCondition / 100 ≤ 1 := by
    rw [div_le_one (by norm_num)]; exact h6
  have hd3 : (0 : ℚ) ≤ m.biodiversityCondition / 100 := by positivity
  have hd3' : m.biodiversityCondition / 100 ≤ 1 := by
    rw [div_le_one (by norm_num)]; exact h8
  have hd4 : (0 : ℚ) ≤ m.propertiesCondition / 100 := by positivity
  have hd4' : m.propertiesCondition / 100 ≤ 1 := by
    rw [div_le_one (by norm_num)]; exact h10
  have hd5 : (0 : ℚ) ≤ m.nuclearPowerStation / 100 := by positivity
  have hd5' : m.nuclearPowerStation / 100 ≤ 1 := by
    rw [div_le_one (by norm_num)]; exact h12
  have hsum0 : 0 ≤ (normalizedVector m).sum := by
    simp only [normalizedVector, List.sum_cons, List.sum_nil, add_zero]
    linarith
  have hsum7 : (normalizedVector m).sum ≤ 7 := by
    simp only [normalizedVector, List.sum_cons, List.sum_nil, add_zero]
    linarith
  have hlen : ((normalizedVector m).length : ℚ) = 7 := by
    norm_num [normalizedVector]
  have hcomp : calculatePerformanceComposite m
      = round2 ((normalizedVector m).sum / ((normalizedVector m).length : ℚ)) := rfl
  have hmean0 : 0 ≤ (normalizedVector m).sum / ((normalizedVector m).length : ℚ) := by
    rw [hlen]; positivity
  have hmean1 : (normalizedVector m).sum / ((normalizedVector m).length : ℚ) ≤ 1 := by
    rw [hlen, div_le_one (by norm_num)]; exact hsum7
  refine ⟨hcomp ▸ round2_nonneg hmean0, hcomp ▸ round2_le_one hmean1, ?_⟩
  have hbal : calculateBalanceIndex m
      = round2 (1 -
          ((normalizedVector m).map
            (fun v : ℚ =>
              (v - (normalizedVector m).sum / ((normalizedVector m).length : ℚ)) ^ 2)).sum /
            ((normalizedVector m).length : ℚ)) := rfl
  have hvar : 0 ≤
      ((normalizedVector m).map
        (fun v : ℚ =>
          (v - (normalizedVector m).sum / ((normalizedVector m).length : ℚ)) ^ 2)).sum /
        ((normalizedVector m).length : ℚ) := by
    apply div_nonneg _ (by rw [hlen]; norm_num)
    apply List.sum_nonneg
    intro x hx
    obtain ⟨v, _, rfl⟩ := List.mem_map.1 hx
    positivity
  exact hbal ▸ round2_le_one (by linarith)

/-- Witness for `c6_composite_bounds` at the all-50 snapshot. -/
theorem c6_composite_bounds_witness :
    ((0 : ℚ) ≤ midSnapshot.livesSaved ∧ (0 : ℚ) ≤ midSnapshot.humanCasualties ∧
      (0 : ℚ) ≤ midSnapshot.firefightingResource ∧ midSnapshot.firefightingResource ≤ 100 ∧
      (0 : ℚ) ≤ midSnapshot.infrastructureCondition ∧ midSnapshot.infrastructureCondition ≤ 100 ∧
      (0 : ℚ) ≤ midSnapshot.biodiversityCondition ∧ midSnapshot.biodiversityCondition ≤ 100 ∧
      (0 : ℚ) ≤ midSnapshot.propertiesCondition ∧ midSnapshot.propertiesCondition ≤ 100 ∧
      (0 : ℚ) ≤ midSnapshot.nuclearPowerStation ∧ midSnapshot.nuclearPowerStation ≤ 100) ∧
    (0 ≤ calculatePerformanceComposite midSnapshot ∧
      calculatePerformanceComposite midSnapshot ≤ 1 ∧
      calculateBalanceIndex midSnapshot ≤ 1) :=
  ⟨by norm_num [midSnapshot],
    c6_composite_bounds midSnapshot (by norm_num [midSnapshot]) (by norm_num [midSnapshot])
      (by norm_num [midSnapshot]) (by norm_num [midSnapshot]) (by norm_num [midSnapshot])
      (by norm_num [midSnapshot]) (by norm_num [midSnapshot]) (by norm_num [midSnapshot])
      (by norm_num [midSnapshot]) (by norm_num [midSnapshot]) (by norm_num [midSnapshot])
      (by norm_num [midSnapshot])⟩

/-! ### C1 -/

/-- C1 counterexample: invoking the computation with an empty outcome list
(and a present snapshot) aborts as claimed — no record, no write — but the
`metricsCalculated` one-shot flag is NOT set, refuting the claim's last
conjunct: the early `return` on the missing-precondition path happens
before `sessionStorage.setItem('metricsCalculated', 'true')`. -/
theorem c1_counterexample :
    (calculateMetrics [] (some zeroSnapshot) [] [] [] [] true).record = none ∧
    (calculateMetrics [] (some zeroSnapshot) [] [] [] [] true).persisted = false ∧
    ¬ (calculateMetrics [] (some zeroSnapshot) [] [] [] [] true).metricsCalculatedFlag = true := by
  refine ⟨rfl, rfl, ?_⟩
  intro h
  simp [calculateMetrics] at h

/-- C1 (amended): if the scenario outcome list is empty or the
simulation-metrics snapshot is absent, the computation aborts producing no
`SessionDVs` record and no persistence write, and the process-local
one-shot flag (`metricsCalculated`) is NOT set after the attempt (it is
set only on the success path or when an exception is raised later in the
computation, not on the early missing-precondition return). -/
theorem c1_missing_precondition_aborts (outcomes : List ScenarioOutcome)
    (fm : Option SimulationMetrics) (matched reorder : List String)
    (history : List ScenarioTrackingRecord) (events : List TelemetryEvent)
    (persistOk : Bool) (h : outcomes = [] ∨ fm = none) :
    (calculateMetrics outcomes fm matched reorder history events persistOk).record = none ∧
    (calculateMetrics outcomes fm matched reorder history events persistOk).persisted = false ∧
    (calculateMetrics outcomes fm matched reorder history events persistOk).metricsCalculatedFlag
      = false := by
  rcases h with h | h
  · subst h; exact ⟨rfl, rfl, rfl⟩
  · subst h
    cases outcomes with
    | nil => exact ⟨rfl, rfl, rfl⟩
    | cons o rest => simp [calculateMetrics]

/-- Witness for `c1_missing_precondition_aborts` at the empty outcome list. -/
theorem c1_missing_precondition_aborts_witness :
    (([] : List ScenarioOutcome) = [] ∨ (some zeroSnapshot : Option SimulationMetrics) = none) ∧
    ((calculateMetrics [] (some zeroSnapshot) [] [] [] [] true).record = none ∧
      (calculateMetrics [] (some zeroSnapshot) [] [] [] [] true).persisted = false ∧
      (calculateMetrics [] (some zeroSnapshot) [] [] [] [] true).metricsCalculatedFlag = false) :=
  ⟨Or.inl rfl,
    c1_missing_precondition_aborts [] (some zeroSnapshot) [] [] [] [] true (Or.inl rfl)⟩

/-! ### C4, C5, C8 -/

lemma avgOf_eq (dt : List ℚ) :
    avgOf dt = if dt = [] then 0 else dt.sum / (dt.length : ℚ) := by
  cases dt <;> simp [avgOf]

/-- C4: the 75-second decision-time fallback is session-wide — the
decision-time list is one 75-second entry per outcome exactly when no
tracking record has usable (truthy) `startTime`/`endTime`; when at least
one record is timed, the list consists of the timed records' elapsed
values `(endTime − startTime)/1000` only, with no per-scenario fallback;
and `avgDecisionTime` is the arithmetic mean of that list (0 when it is
empty). -/
theorem c4_session_wide_fallback (outcomes : List ScenarioOutcome) (fm : SimulationMetrics)
    (matched reorder : List String) (history : List ScenarioTrackingRecord)
    (events : List TelemetryEvent) :
    (computeSessionDVs outcomes fm matched reorder history events).decisionTimes
      = (if (history.filter hasTiming).isEmpty
          then outcomes.map (fun _ => (75 : ℚ))
          else (history.filter hasTiming).map elapsedSeconds) ∧
    (computeSessionDVs outcomes fm matched reorder history events).avgDecisionTime
      = (if (computeSessionDVs outcomes fm matched reorder history events).decisionTimes = []
          then 0
          else (computeSessionDVs outcomes fm matched reorder history events).decisionTimes.sum
            / ((computeSessionDVs outcomes fm matched reorder history
                events).decisionTimes.length : ℚ)) := by
  refine ⟨?_, ?_⟩
  · rw [computeSessionDVs_decisionTimes, sessionDecisionTimes_eq]
  · rw [computeSessionDVs_decisionTimes]
    exact avgOf_eq _

/-- Concrete scenario outcomes used by counterexamples and witnesses. -/
def outcomeS1 : ScenarioOutcome :=
  { scenarioId := 1, decision := { label := some "care", title := none } }

/-- A scenario-2 outcome. -/
def outcomeS2 : ScenarioOutcome :=
  { scenarioId := 2, decision := { label := some "duty", title := none } }

/-- A tracking record for scenario 1 with usable timing (2 seconds). -/
def timedRecord1 : ScenarioTrackingRecord :=
  { scenarioId := 1, startTime := some 1000, endTime := some 3000
    switchCount := none, cvrVisited := none, cvrVisitCount := none
    cvrYesAnswers := none, apaReordered := none, apaReorderCount := none }

/-- C5 counterexample: with two outcomes but a single timed tracking
record, `decisionTimes` has one entry, not one per outcome. -/
theorem c5_counterexample :
    (computeSessionDVs [outcomeS1, outcomeS2] zeroSnapshot [] [] [timedRecord1]
        []).decisionTimes.length = 1 ∧
    ([outcomeS1, outcomeS2] : List ScenarioOutcome).length = 2 := by
  refine ⟨?_, rfl⟩
  rw [computeSessionDVs_decisionTimes, sessionDecisionTimes_eq]
  norm_num [List.filter_cons, hasTiming, jsTruthyNum, timedRecord1]

/-- C5 (amended): `decisionTimes` holds one entry per tracking record with
usable timing, in tracking-history order — not one per outcome; only when
zero records have usable timing does it hold one 75-second entry per
outcome, so its length equals the timed-record count (or the outcome
count in the fallback case). -/
theorem c5_decision_times_shape (outcomes : List ScenarioOutcome) (fm : SimulationMetrics)
    (matched reorder : List String) (history : List ScenarioTrackingRecord)
    (events : List TelemetryEvent) :
    ((computeSessionDVs outcomes fm matched reorder history events).decisionTimes
        = (if (history.filter hasTiming).isEmpty
            then outcomes.map (fun _ => (75 : ℚ))
            else (history.filter hasTiming).map elapsedSeconds)) ∧
    ((computeSessionDVs outcomes fm matched reorder history events).decisionTimes.length
        = (if (history.filter hasTiming).isEmpty then outcomes.length
            else (history.filter hasTiming).length)) := by
  rw [computeSessionDVs_decisionTimes, sessionDecisionTimes_eq]
  by_cases h : (history.filter hasTiming).isEmpty <;> simp [h]

/-- C8: `scenarioDetails` carries exactly one record per outcome, in
outcome order with matching scenario ids, and `scenarioDetails`, the
outcome list and `finalAlignmentByScenario` all have the same length. -/
theorem c8_structural_invariant (outcomes : List ScenarioOutcome) (fm : SimulationMetrics)
    (matched reorder : List String) (history : List ScenarioTrackingRecord)
    (events : List TelemetryEvent) :
    (computeSessionDVs outcomes fm matched reorder history events).scenarioDetails.map
        (fun d => d.scenarioId)
      = outcomes.map (fun o => o.scenarioId) ∧
    (computeSessionDVs outcomes fm matched reorder history events).scenarioDetails.length
      = outcomes.length ∧
    (computeSessionDVs outcomes fm matched reorder history
        events).finalAlignmentByScenario.length = outcomes.length := by
  refine ⟨?_, ?_, ?_⟩
  · rw [computeSessionDVs_scenarioDetails]
    exact scenarioDetailsAux_map_scenarioId matched reorder events history _ outcomes 0
  · rw [computeSessionDVs_scenarioDetails]
    exact scenarioDetailsAux_length matched reorder events history _ outcomes 0
  · rw [computeSessionDVs_finalAlignment]
    exact List.length_map outcomes _

/-! ### C2 -/

lemma scenarioCvrYes_length (events : List TelemetryEvent) (sid : Int) :
    (scenarioCvrYes events sid).length
      = events.countP (fun e => e.event == "cvr_answered" &&
          e.scenarioId == some sid && e.cvrAnswer == some true) := by
  unfold scenarioCvrYes cvrAnswerEvents
  rw [List.filter_filter, ← List.countP_eq_length_filter]
  apply List.countP_congr
  intro e _
  cases h1 : (e.event == "cvr_answered") <;>
    cases h2 : (e.scenarioId == some sid) <;>
      cases h3 : (e.cvrAnswer == some true) <;> simp [h1, h2, h3]

lemma valueExistsInList_eq_true_iff (matched reorder : List String) (o : ScenarioOutcome) :
    valueExistsInList matched reorder o = true ↔
      ((o.scenarioId = 1 ∧ toLowerString (jsOrStr o.decision.label "") ∈ matched) ∨
       ((o.scenarioId = 2 ∨ o.scenarioId = 3) ∧
         toLowerString (jsOrStr o.decision.label "") ∈ reorder)) := by
  unfold valueExistsInList
  by_cases h1 : o.scenarioId = 1
  · simp [h1, List.contains, List.elem_iff]
  · by_cases h2 : o.scenarioId = 2
    · simp [h1, h2, List.contains, List.elem_iff]
    · by_cases h3 : o.scenarioId = 3
      · simp [h1, h2, h3, List.contains, List.elem_iff]
      · simp [h1, h2, h3]

lemma alignedOf_eq_true_iff (matched reorder : List String) (events : List TelemetryEvent)
    (o : ScenarioOutcome) :
    alignedOf matched reorder events o = true ↔
      (((o.scenarioId = 1 ∧ toLowerString (jsOrStr o.decision.label "") ∈ matched) ∨
        ((o.scenarioId = 2 ∨ o.scenarioId = 3) ∧
          toLowerString (jsOrStr o.decision.label "") ∈ reorder)) ∧
       events.countP (fun e => e.event == "cvr_answered" &&
         e.scenarioId == some o.scenarioId && e.cvrAnswer == some true) = 0) := by
  unfold alignedOf
  rw [Bool.and_eq_true, valueExistsInList_eq_true_iff, scenarioCvrYes_length]
  simp

/-- C2: the alignment recorded for the scenario at position `i` of the
outcome list is true iff the lower-cased decision label belongs to the
applicable reference list (scenario id 1: baseline matched-values list;
ids 2 and 3: moral-values-reorder list; any other id: no membership) and
the event log holds zero `cvr_answered` events for that scenario whose
`cvrAnswer` is true. -/
theorem c2_alignment (outcomes : List ScenarioOutcome) (fm : SimulationMetrics)
    (matched reorder : List String) (history : List ScenarioTrackingRecord)
    (events : List TelemetryEvent) (i : Nat) (o : ScenarioOutcome)
    (ho : outcomes[i]? = some o) :
    (computeSessionDVs outcomes fm matched reorder history
        events).finalAlignmentByScenario[i]? = some true ↔
      (((o.scenarioId = 1 ∧ toLowerString (jsOrStr o.decision.label "") ∈ matched) ∨
        ((o.scenarioId = 2 ∨ o.scenarioId = 3) ∧
          toLowerString (jsOrStr o.decision.label "") ∈ reorder)) ∧
       events.countP (fun e => e.event == "cvr_answered" &&
         e.scenarioId == some o.scenarioId && e.cvrAnswer == some true) = 0) := by
  rw [computeSessionDVs_finalAlignment, List.getElem?_map, ho, Option.map_some',
    Option.some_inj]
  exact alignedOf_eq_true_iff matched reorder events o

/-- Witness for `c2_alignment`: scenario 1 with label "care", baseline list
containing "care", empty event log — aligned. -/
theorem c2_alignment_witness :
    (([outcomeS1] : List ScenarioOutcome)[0]? = some outcomeS1) ∧
    ((computeSessionDVs [outcomeS1] zeroSnapshot ["care"] [] [] []
        ).finalAlignmentByScenario[0]? = some true ↔
      (((outcomeS1.scenarioId = 1 ∧
          toLowerString (jsOrStr outcomeS1.decision.label "") ∈ ["care"]) ∨
        ((outcomeS1.scenarioId = 2 ∨ outcomeS1.scenarioId = 3) ∧
          toLowerString (jsOrStr outcomeS1.decision.label "") ∈ ([] : List String))) ∧
       ([] : List TelemetryEvent).countP (fun e => e.event == "cvr_answered" &&
         e.scenarioId == some outcomeS1.scenarioId && e.cvrAnswer == some true) = 0)) :=
  ⟨rfl, c2_alignment [outcomeS1] zeroSnapshot ["care"] [] [] [] 0 outcomeS1 rfl⟩

/-! ### C7 -/

lemma realignTriggered_iff (events : List TelemetryEvent) (sid : Int) :
    realignTriggered events sid = true ↔
      ∃ e, (events.filter (fun e => e.scenarioId == some sid)).find?
          (fun e => e.event == "option_confirmed") = some e ∧
        ∃ f, e.flagsAtConfirmation = some f ∧
          (f.simulationMetricsReorderingFlag.getD false = true ∨
            f.moralValuesReorderingFlag.getD false = true) := by
  unfold realignTriggered firstConfirmationFlags
  cases hfind : (events.filter fun e => e.scenarioId == some sid).find?
      (fun e => e.event == "option_confirmed") with
  | none => simp [hfind]
  | some e =>
    cases hflag : e.flagsAtConfirmation with
    | none => simp [hflag]
    | some f => simp [hflag, Bool.or_eq_true]

/-- An `option_confirmed` event for scenario 2 whose confirmation flags
record a simulation-metrics reordering. -/
def confirmedEvent2 : TelemetryEvent :=
  { event := "option_confirmed", scenarioId := some 2, cvrAnswer := none
    valuesAfter := none, preferenceType := none
    flagsAtConfirmation :=
      some { simulationMetricsReorderingFlag := some true
             moralValuesReorderingFlag := none } }

/-- C7: iterating scenarios in outcome order, `realignAfterCvrApaCount`
counts exactly the scenarios whose first `option_confirmed` event exists,
carries `flagsAtConfirmation`, and has either reordering flag true there,
while `misalignAfterCvrApaCount` independently counts the scenarios whose
computed alignment is false; the two counters are not mutually exclusive
or complementary (a single-scenario session can contribute to both, or to
neither). -/
theorem c7_realign_misalign_counters (outcomes : List ScenarioOutcome)
    (fm : SimulationMetrics) (matched reorder : List String)
    (history : List ScenarioTrackingRecord) (events : List TelemetryEvent) :
    ((computeSessionDVs outcomes fm matched reorder history events).realignAfterCvrApaCount
        = outcomes.countP (fun o => realignTriggered events o.scenarioId) ∧
      (computeSessionDVs outcomes fm matched reorder history events).misalignAfterCvrApaCount
        = outcomes.countP (fun o => !alignedOf matched reorder events o) ∧
      ∀ sid, realignTriggered events sid = true ↔
        ∃ e, (events.filter (fun e => e.scenarioId == some sid)).find?
            (fun e => e.event == "option_confirmed") = some e ∧
          ∃ f, e.flagsAtConfirmation = some f ∧
            (f.simulationMetricsReorderingFlag.getD false = true ∨
              f.moralValuesReorderingFlag.getD false = true)) ∧
    ((computeSessionDVs [outcomeS2] zeroSnapshot [] [] []
          [confirmedEvent2]).realignAfterCvrApaCount = 1 ∧
      (computeSessionDVs [outcomeS2] zeroSnapshot [] [] []
          [confirmedEvent2]).misalignAfterCvrApaCount = 1) ∧
    ((computeSessionDVs [outcomeS1] zeroSnapshot ["care"] [] []
          []).realignAfterCvrApaCount = 0 ∧
      (computeSessionDVs [outcomeS1] zeroSnapshot ["care"] [] []
          []).misalignAfterCvrApaCount = 0) := by
  refine ⟨⟨?_, ?_, fun sid => realignTriggered_iff events sid⟩, ⟨?_, ?_⟩, ⟨?_, ?_⟩⟩
  · exact scenarioDetailsAux_countP matched reorder events history _
      (fun d => realignTriggered events d.scenarioId)
      (fun o => realignTriggered events o.scenarioId) (fun _ _ => rfl) outcomes 0
  · exact scenarioDetailsAux_countP matched reorder events history _
      (fun d => !d.aligned)
      (fun o => !alignedOf matched reorder events o) (fun _ _ => rfl) outcomes 0
  · rfl
  · rfl
  · rfl
  · rfl

/-! ### C3 -/

/-- A tracking record for scenario 1 with a truthy switch counter but no
timing information. -/
def untimedRecord1 : ScenarioTrackingRecord :=
  { scenarioId := 1, startTime := none, endTime := none
    switchCount := some 5, cvrVisited := none, cvrVisitCount := none
    cvrYesAnswers := none, apaReordered := none, apaReorderCount := none }

/-- C3 counterexample: a `ScenarioTrackingRecord` exists for scenario 1
with truthy `switchCount = 5`, yet — because the record lacks
startTime/endTime and therefore never enters `scenarioDetailsMap` — the
output detail reports `switches = 0` (the recomputed value), not the
tracked value. -/
theorem c3_counterexample :
    untimedRecord1.scenarioId = outcomeS1.scenarioId ∧
    untimedRecord1.switchCount = some 5 ∧
    (computeSessionDVs [outcomeS1] zeroSnapshot [] [] [untimedRecord1] []).scenarioDetails.map
        (fun d => d.switches) = [0] :=
  ⟨rfl, rfl, rfl⟩

/-- C3 (amended): the tracked-when-truthy-else-recomputed reconciliation
holds for every scenario whose surviving tracking record has truthy
`startTime` and `endTime` (only such records enter the reconciliation
map); a tracking record without usable timing is ignored entirely and all
fields are recomputed from events. -/
theorem c3_reconciliation (outcomes : List ScenarioOutcome) (fm : SimulationMetrics)
    (matched reorder : List String) (history : List ScenarioTrackingRecord)
    (events : List TelemetryEvent) (i : Nat) (o : ScenarioOutcome)
    (r : ScenarioTrackingRecord) (ho : outcomes[i]? = some o)
    (hr : lastTimedRecord history o.scenarioId = some r) :
    ∃ d, (computeSessionDVs outcomes fm matched reorder history events).scenarioDetails[i]?
        = some d ∧
      d.switches = (if r.switchCount.getD 0 = 0
          then recomputedSwitchCount events o.scenarioId else r.switchCount.getD 0) ∧
      d.cvrVisited
        = (r.cvrVisited.getD false || !(scenarioCvrVisits events o.scenarioId).isEmpty) ∧
      d.cvrVisitCount = (if r.cvrVisitCount.getD 0 = 0
          then (scenarioCvrVisits events o.scenarioId).length else r.cvrVisitCount.getD 0) ∧
      d.cvrYesAnswers = (if r.cvrYesAnswers.getD 0 = 0
          then (scenarioCvrYes events o.scenarioId).length else r.cvrYesAnswers.getD 0) ∧
      d.apaReordered
        = (r.apaReordered.getD false || !(scenarioApa events o.scenarioId).isEmpty) ∧
      d.apaReorderCount = (if r.apaReorderCount.getD 0 = 0
          then (scenarioApa events o.scenarioId).length else r.apaReorderCount.getD 0) := by
  refine ⟨scenarioDetailOf matched reorder events history
      (sessionDecisionTimes history outcomes) i o, ?_, ?_, ?_, ?_, ?_, ?_, ?_⟩
  · rw [computeSessionDVs_scenarioDetails,
      scenarioDetailsAux_getElem? matched reorder events history _ outcomes 0 i, ho]
    simp
  all_goals
    have htd : scenarioDetailsMapGet history o.scenarioId = some (trackingDataOf r) := by
      rw [scenarioDetailsMapGet_eq, hr]; rfl
  all_goals simp [scenarioDetailOf, htd, trackingDataOf, jsOrNat]

/-- Witness for `c3_reconciliation`: scenario 1 with a timed tracking
record (no counters, so every field falls back to the recomputed value). -/
theorem c3_reconciliation_witness :
    (([outcomeS1] : List ScenarioOutcome)[0]? = some outcomeS1) ∧
    (lastTimedRecord [timedRecord1] outcomeS1.scenarioId = some timedRecord1) ∧
    ∃ d, (computeSessionDVs [outcomeS1] zeroSnapshot [] [] [timedRecord1]
        []).scenarioDetails[0]? = some d ∧
      d.switches = (if timedRecord1.switchCount.getD 0 = 0
          then recomputedSwitchCount [] outcomeS1.scenarioId
          else timedRecord1.switchCount.getD 0) ∧
      d.cvrVisited = (timedRecord1.cvrVisited.getD false ||
        !(scenarioCvrVisits [] outcomeS1.scenarioId).isEmpty) ∧
      d.cvrVisitCount = (if timedRecord1.cvrVisitCount.getD 0 = 0
          then (scenarioCvrVisits [] outcomeS1.scenarioId).length
          else timedRecord1.cvrVisitCount.getD 0) ∧
      d.cvrYesAnswers = (if timedRecord1.cvrYesAnswers.getD 0 = 0
          then (scenarioCvrYes [] outcomeS1.scenarioId).length
          else timedRecord1.cvrYesAnswers.getD 0) ∧
      d.apaReordered = (timedRecord1.apaReordered.getD false ||
        !(scenarioApa [] outcomeS1.scenarioId).isEmpty) ∧
      d.apaReorderCount = (if timedRecord1.apaReorderCount.getD 0 = 0
          then (scenarioApa [] outcomeS1.scenarioId).length
          else timedRecord1.apaReorderCount.getD 0) :=
  ⟨rfl, rfl,
    c3_reconciliation [outcomeS1] zeroSnapshot [] [] [timedRecord1] [] 0 outcomeS1
      timedRecord1 rfl rfl⟩

/-! ### C10 -/

/-- C10: every scenario detail's `timeSeconds` is the rounded (`Math.round`)
whole-second time — for a scenario whose surviving timed tracking record is
`r`, it is `(endTime − startTime)/1000` rounded, while the unrounded value
appears in `decisionTimes`; for a scenario with no timed tracking record it
is the `decisionTimes` entry at the outcome's index rounded, or 0 when no
such entry exists (`getD i 0`). -/
theorem c10_time_seconds (outcomes : List ScenarioOutcome) (fm : SimulationMetrics)
    (matched reorder : List String) (history : List ScenarioTrackingRecord)
    (events : List TelemetryEvent) (i : Nat) (o : ScenarioOutcome)
    (ho : outcomes[i]? = some o) :
    ∃ d, (computeSessionDVs outcomes fm matched reorder history events).scenarioDetails[i]?
        = some d ∧
      (∀ r, lastTimedRecord history o.scenarioId = some r →
        d.timeSeconds = jsRound (elapsedSeconds r) ∧
          elapsedSeconds r ∈
            (computeSessionDVs outcomes fm matched reorder history events).decisionTimes) ∧
      (lastTimedRecord history o.scenarioId = none →
        d.timeSeconds = jsRound
          ((computeSessionDVs outcomes fm matched reorder history
            events).decisionTimes.getD i 0)) := by
  refine ⟨scenarioDetailOf matched reorder events history
      (sessionDecisionTimes history outcomes) i o, ?_, ?_, ?_⟩
  · rw [computeSessionDVs_scenarioDetails,
      scenarioDetailsAux_getElem? matched reorder events history _ outcomes 0 i, ho]
    simp
  · intro r hr
    have htd : scenarioDetailsMapGet history o.scenarioId = some (trackingDataOf r) := by
      rw [scenarioDetailsMapGet_eq, hr]; rfl
    have hmem : r ∈ history.filter hasTiming := by
      have hrev := List.mem_of_find?_eq_some hr
      exact (List.mem_reverse).mp hrev
    constructor
    · simp [scenarioDetailOf, htd, trackingDataOf]
    · rw [computeSessionDVs_decisionTimes, sessionDecisionTimes_eq]
      have hne : ¬ history.filter hasTiming = [] := List.ne_nil_of_mem hmem
      rw [if_neg (by simpa [List.isEmpty_iff] using hne)]
      exact List.mem_map_of_mem elapsedSeconds hmem
  · intro hr
    have htd : scenarioDetailsMapGet history o.scenarioId = none := by
      rw [scenarioDetailsMapGet_eq, hr]; rfl
    simp [scenarioDetailOf, htd, defaultTrackingData, computeSessionDVs_decisionTimes]

/-- Witness for `c10_time_seconds`: scenario 1 with a timed tracking record
(2000 ms elapsed). -/
theorem c10_time_seconds_witness :
    (([outcomeS1] : List ScenarioOutcome)[0]? = some outcomeS1) ∧
    ∃ d, (computeSessionDVs [outcomeS1] zeroSnapshot [] [] [timedRecord1]
        []).scenarioDetails[0]? = some d ∧
      (∀ r, lastTimedRecord [timedRecord1] outcomeS1.scenarioId = some r →
        d.timeSeconds = jsRound (elapsedSeconds r) ∧
          elapsedSeconds r ∈
            (computeSessionDVs [outcomeS1] zeroSnapshot [] [] [timedRecord1]
              []).decisionTimes) ∧
      (lastTimedRecord [timedRecord1] outcomeS1.scenarioId = none →
        d.timeSeconds = jsRound
          ((computeSessionDVs [outcomeS1] zeroSnapshot [] [] [timedRecord1]
            []).decisionTimes.getD 0 0)) :=
  ⟨rfl, c10_time_seconds [outcomeS1] zeroSnapshot [] [] [timedRecord1] [] 0 outcomeS1 rfl⟩

end ViewResults
